import Mathlib

/-!
Verification of the WealthEscrow bot repository.

This file gives a shallow embedding of the repository's core logic:
the payment-target resolvers (`generate_payment_qr` in bot.py,
bot_groups.py and btcpay.py), the BTCPay client helpers (btcpay.py),
the role registry and command handlers (bot.py, bot_groups.py), and
the channel provisioner (`create_new_group` in app_tdlib.py).
Network calls and platform calls are modelled as explicit inputs
(`Except`-valued results of the external calls); everything that the
Python code computes from those inputs is embedded as executable
Lean functions, and the spec's claims are proved or refuted about them.
-/

namespace WealthEscrow

/-- Python truthiness of an optional string field (`if amount:` etc.):
`None` and the empty string are falsy, every other string is truthy. -/
def pyTruthy : Option String → Bool
  | none => false
  | some s => s != ""

/-- Python string interpolation of an optional value: `None` formats as
the literal text "None" inside an f-string. -/
def pyStr : Option String → String
  | none => "None"
  | some s => s

/-- `pat` is a prefix of the character list. -/
def charPrefixOf : List Char → List Char → Bool
  | [], _ => true
  | _ :: _, [] => false
  | p :: ps, c :: cs => p == c && charPrefixOf ps cs

/-- `pat` occurs as a contiguous sublist of the character list. -/
def charContains (pat : List Char) : List Char → Bool
  | [] => pat.isEmpty
  | c :: cs => charPrefixOf pat (c :: cs) || charContains pat cs

/-- Python's substring test `"Lightning" in label`
(from bot_groups.py, lines 75 and 88). -/
def containsLightning (label : String) : Bool :=
  charContains "Lightning".toList label.toList

/-- Tokenizer behind `pySplit`: walk the characters, accumulating the
current (reversed) token, emitting it at each whitespace run. -/
def pySplitAux : List Char → List Char → List String
  | [], acc => if acc.isEmpty then [] else [String.mk acc.reverse]
  | c :: cs, acc =>
    if c.isWhitespace then
      if acc.isEmpty then pySplitAux cs []
      else String.mk acc.reverse :: pySplitAux cs []
    else pySplitAux cs (c :: acc)

/-- Python's `text.split()` with no separator argument: split on runs of
whitespace, discarding empty fields (used by every command handler). -/
def pySplit (text : String) : List String :=
  pySplitAux text.toList []

/-- One entry of `checkout.paymentMethods[]` in the invoice JSON returned
by the gateway.  `paymentMethod` is the method label read with
`m.get("paymentMethod", "")`; `destination` and `amount` are read with
`.get`, so a missing key is `none`. -/
structure PaymentMethod where
  paymentMethod : String
  destination : Option String
  amount : Option String
  deriving DecidableEq, Repr

/-- The fields of a fetched invoice that the handlers read:
`checkoutLink`, `status`, and `checkout.paymentMethods`. -/
structure Invoice where
  checkoutLink : Option String
  status : String
  paymentMethods : List PaymentMethod
  deriving DecidableEq, Repr

/-- The scan loop of bot_groups.py lines 74-78: walk the method list in
order and keep the first method whose label contains "Lightning". -/
def findLightning (methods : List PaymentMethod) : Option PaymentMethod :=
  methods.find? (fun m => containsLightning m.paymentMethod)

/-- Method selection of bot_groups.py `generate_payment_qr`, lines 70-81:
error (`none`) on an empty method list; otherwise, when
`prefer_lightning` is set, the first Lightning-labelled method if one
exists, and in every other case the first method `methods[0]`. -/
def chooseMethod (methods : List PaymentMethod) (prefer_lightning : Bool) :
    Option PaymentMethod :=
  match methods with
  | [] => none
  | m0 :: _ =>
    match (if prefer_lightning then findLightning methods else none) with
    | some m => some m
    | none => some m0

/-- `generate_payment_qr` of bot_groups.py (URI part; the QR encoding of
the URI is a pure renderer applied afterwards).  Mirrors lines 64-103:
empty method list and missing/empty destination raise `ValueError`;
a Lightning method yields `lightning:destination` with no amount
suffix; an on-chain method yields `bitcoin:destination` with
`?amount=` appended only when the amount field is truthy. -/
def generate_payment_qr_groups (methods : List PaymentMethod)
    (prefer_lightning : Bool) : Except String (String × PaymentMethod) :=
  match chooseMethod methods prefer_lightning with
  | none => Except.error "No payment methods found in invoice."
  | some chosen =>
    match chosen.destination with
    | none => Except.error "No payment destination found."
    | some address =>
      if address = "" then Except.error "No payment destination found."
      else
        let uri :=
          if containsLightning chosen.paymentMethod then
            "lightning:" ++ address
          else
            "bitcoin:" ++ address ++
              (if pyTruthy chosen.amount then "?amount=" ++ pyStr chosen.amount
               else "")
        Except.ok (uri, chosen)

/-- `generate_payment_qr` of bot.py, lines 47-63 (URI part).  Selects
`pm[0]` unconditionally and performs NO destination check: a missing
destination is interpolated into the URI as the text "None". -/
def generate_payment_qr_bot (methods : List PaymentMethod) :
    Except String String :=
  match methods with
  | [] => Except.error "No payment methods in invoice"
  | m0 :: _ =>
    let uri := "bitcoin:" ++ pyStr m0.destination
    Except.ok (if pyTruthy m0.amount then uri ++ "?amount=" ++ pyStr m0.amount
               else uri)

/-- `generate_payment_qr` of btcpay.py, lines 104-131 (URI part).
Selects `pm[0]`, errors on a missing or empty destination, appends the
amount only when truthy. -/
def generate_payment_qr_btcpay (methods : List PaymentMethod) :
    Except String String :=
  match methods with
  | [] => Except.error "No payment methods found in invoice."
  | m0 :: _ =>
    match m0.destination with
    | none => Except.error "No payment address found in invoice."
    | some address =>
      if address = "" then Except.error "No payment address found in invoice."
      else
        let uri := "bitcoin:" ++ address
        Except.ok (if pyTruthy m0.amount then uri ++ "?amount=" ++ pyStr m0.amount
                   else uri)

/-- The module-level BTCPay configuration of btcpay.py: the base URL
(which has a default) and the two credentials, read from the
environment with `os.getenv`, so a missing variable is `none`. -/
structure BtcpayEnv where
  url : String
  apiKey : Option String
  storeId : Option String
  deriving DecidableEq, Repr

/-- The import-time (construction-time) behaviour of btcpay.py: the
module top level only calls `load_dotenv` and reads the three
environment values into globals; it performs NO credential check and
never raises, whatever is missing. -/
def btcpayModuleInit (env : BtcpayEnv) : Except String BtcpayEnv :=
  Except.ok env

/-- `_require_env` of btcpay.py, lines 37-50: collect the names of the
falsy credentials in order and raise `RuntimeError` when any is
missing. -/
def require_env (env : BtcpayEnv) : Except String Unit :=
  let missing :=
    (if pyTruthy env.apiKey then [] else ["BTCPAY_API_KEY"]) ++
      (if pyTruthy env.storeId then [] else ["BTCPAY_STORE_ID"])
  if missing.isEmpty then Except.ok ()
  else
    Except.error ("Missing env var(s): " ++ String.intercalate ", " missing ++
      ". Add them to your .env file.")

/-- `_headers` of btcpay.py, lines 53-58: check the credentials, then
build the authorization headers.  Called on EVERY API call. -/
def headers (env : BtcpayEnv) : Except String (List (String × String)) :=
  match require_env env with
  | Except.error e => Except.error e
  | Except.ok _ =>
    Except.ok [("Authorization", "token " ++ pyStr env.apiKey),
               ("Content-Type", "application/json")]

/-- `_store_base_url` of btcpay.py, lines 61-62. -/
def store_base_url (env : BtcpayEnv) : String :=
  env.url ++ "/api/v1/stores/" ++ pyStr env.storeId

/-- An outbound HTTP request as assembled by the client, up to the point
where it is handed to the network layer. -/
structure HttpRequest where
  url : String
  reqHeaders : List (String × String)
  deriving DecidableEq, Repr

/-- The invoice-creation payload of btcpay.py `create_invoice`
(amount already stringified as in `str(amount)`). -/
structure InvoicePayload where
  amount : String
  currency : String
  escrowId : String
  deriving DecidableEq, Repr

/-- `create_invoice` of btcpay.py, lines 67-83, up to the network call:
assemble the URL, payload and headers.  The credential check runs
inside `headers` on this very call. -/
def create_invoice_request (env : BtcpayEnv) (escrowId : String)
    (amount : String) (currency : String) :
    Except String (HttpRequest × InvoicePayload) :=
  match headers env with
  | Except.error e => Except.error e
  | Except.ok h =>
    Except.ok (⟨store_base_url env ++ "/invoices", h⟩,
               ⟨amount, currency, escrowId⟩)

/-- `get_invoice` of btcpay.py, lines 86-90, up to the network call. -/
def get_invoice_request (env : BtcpayEnv) (invoiceId : String) :
    Except String HttpRequest :=
  match headers env with
  | Except.error e => Except.error e
  | Except.ok h =>
    Except.ok ⟨store_base_url env ++ "/invoices/" ++ invoiceId, h⟩

/-- `is_invoice_paid` of btcpay.py, lines 93-95: delegates to
`get_invoice` (so it assembles the same request) and then compares the
returned status with "Settled". -/
def is_invoice_paid_request (env : BtcpayEnv) (invoiceId : String) :
    Except String HttpRequest :=
  get_invoice_request env invoiceId

/-- `is_invoice_paid`'s derived check on a fetched invoice. -/
def is_invoice_paid_status (inv : Invoice) : Bool :=
  inv.status == "Settled"

/-- Declared role of a participant (bot.py's role registry). -/
inductive Role
  | seller
  | buyer
  deriving DecidableEq, Repr

/-- One record of bot.py's `user_roles` dict: role and wallet address,
always written together as one value. -/
structure Participant where
  role : Role
  address : String
  deriving DecidableEq, Repr

/-- bot.py's `user_roles` in-memory registry, observed through lookup:
a map from user id to the stored record. -/
def Registry : Type := Nat → Option Participant

/-- The dict assignment `user_roles[uid] = dict-of-role-and-address`
performed by `cmd_seller` / `cmd_buyer`: the whole record is replaced
as one unit. -/
def register (reg : Registry) (uid : Nat) (r : Role) (addr : String) :
    Registry :=
  fun i => if i = uid then some ⟨r, addr⟩ else reg i

/-- Dict lookup `user_roles[uid]` (as observed by any reader). -/
def lookup (reg : Registry) (uid : Nat) : Option Participant :=
  reg uid

/-- The empty registry (fresh process). -/
def emptyRegistry : Registry :=
  fun _ => none

/-- Observable side effects a command handler issues, in order. -/
inductive BotAction
  | reply (text : String)
  | replyPhoto (caption : String)
  | answerPhoto (caption : String)
  | sleep (seconds : Nat)
  | deleteReply
  | deleteTrigger
  deriving DecidableEq, Repr

/-- `cmd_seller` of bot.py, lines 182-191: with fewer than two tokens,
reply with the usage text and change nothing; otherwise store the
record and confirm. -/
def cmd_seller (text : String) (uid : Nat) (reg : Registry) :
    Registry × List BotAction :=
  match pySplit text with
  | _ :: wallet :: _ =>
    (register reg uid Role.seller wallet,
     [BotAction.reply ("✅ You are now registered as a <b>SELLER</b>.\nWallet: <code>"
        ++ wallet ++ "</code>")])
  | _ => (reg, [BotAction.reply "⚠️ Usage: /seller <WALLET_ADDRESS>"])

/-- `cmd_buyer` of bot.py, lines 194-203. -/
def cmd_buyer (text : String) (uid : Nat) (reg : Registry) :
    Registry × List BotAction :=
  match pySplit text with
  | _ :: wallet :: _ =>
    (register reg uid Role.buyer wallet,
     [BotAction.reply ("✅ You are now registered as a <b>BUYER</b>.\nWallet: <code>"
        ++ wallet ++ "</code>")])
  | _ => (reg, [BotAction.reply "⚠️ Usage: /buyer <WALLET_ADDRESS>"])

/-- The caption of bot.py's payment reply (f-string of lines 143-147). -/
def payCaptionBot (invoiceId : String) (checkoutLink : Option String) :
    String :=
  "💳 <b>Invoice Payment</b>\nID: <code>" ++ invoiceId ++
    "</code>\n\nPay here: " ++ pyStr checkoutLink ++
    "\n\n(This message will auto-delete in 60s)"

/-- `cmd_pay` of bot.py, lines 131-156, with the invoice fetch given as
an explicit input (the network result).  On a successful QR reply the
handler sleeps 60 seconds and then deletes first its own reply and
then the triggering command message. -/
def cmd_pay_bot (text : String) (fetch : Except String Invoice) :
    List BotAction :=
  match pySplit text with
  | _ :: invoiceId :: _ =>
    (match fetch with
     | Except.error e => [BotAction.reply ("❌ Error: " ++ e)]
     | Except.ok inv =>
       match generate_payment_qr_bot inv.paymentMethods with
       | Except.error e => [BotAction.reply ("❌ Error: " ++ e)]
       | Except.ok _ =>
         [BotAction.answerPhoto (payCaptionBot invoiceId inv.checkoutLink),
          BotAction.sleep 60, BotAction.deleteReply, BotAction.deleteTrigger])
  | _ => [BotAction.reply "⚠️ Usage: /pay <invoice_id>"]

/-- The caption of bot_groups.py's payment reply (f-string, line 144). -/
def payCaptionGroups (invoiceId uri : String) : String :=
  "💳 Payment QR for invoice `" ++ invoiceId ++ "`\n\n👉 URI: `" ++ uri ++ "`"

/-- `cmd_pay` of bot_groups.py, lines 122-150: same argument parsing,
calls the resolver with `prefer_lightning=False`, replies with the QR
photo and caption — and issues NO deletion and NO sleep afterwards. -/
def cmd_pay_groups (text : String) (fetch : Except String Invoice) :
    List BotAction :=
  match pySplit text with
  | _ :: invoiceId :: _ =>
    (match fetch with
     | Except.error e => [BotAction.reply ("❌ Error: " ++ e)]
     | Except.ok inv =>
       match generate_payment_qr_groups inv.paymentMethods false with
       | Except.error e => [BotAction.reply ("❌ Error: " ++ e)]
       | Except.ok (uri, _) =>
         [BotAction.replyPhoto (payCaptionGroups invoiceId uri)])
  | _ => [BotAction.reply "⚠️ Usage: /pay <invoice_id>"]

/-- The outcomes of the five external platform calls made by
`create_new_group` of app_tdlib.py, supplied as inputs: channel
creation (returning the chat id), bot add, bot promotion, invite-link
export, and the fallback invite-link creation. -/
structure TdlibCalls where
  createSupergroup : Except String Int
  addChatMembers : Except String Unit
  promoteChatMember : Except String Unit
  exportInviteLink : Except String String
  createInviteLink : Except String String

/-- `create_new_group` of app_tdlib.py, lines 58-109: channel creation
failure propagates; the bot-add and bot-promotion steps are wrapped in
try/except-pass (their results are swallowed); the invite link comes
from the export call, falling back to the creation call, and only when
both fail does the whole operation fail. -/
def create_new_group (calls : TdlibCalls) (title : String) :
    Except String (String × String × Int) :=
  match calls.createSupergroup with
  | Except.error e => Except.error e
  | Except.ok chatId =>
    let _ := match calls.addChatMembers with
      | Except.ok _ => ()
      | Except.error _ => ()
    let _ := match calls.promoteChatMember with
      | Except.ok _ => ()
      | Except.error _ => ()
    match calls.exportInviteLink with
    | Except.ok link => Except.ok (link, title, chatId)
    | Except.error _ =>
      match calls.createInviteLink with
      | Except.ok link => Except.ok (link, title, chatId)
      | Except.error e => Except.error e

/-- `Except` success test, used to state when provisioning succeeds. -/
def exIsOk {ε α : Type} : Except ε α → Bool
  | Except.ok _ => true
  | Except.error _ => false

/-! Concrete fixtures used by witnesses and counterexamples. -/

/-- An on-chain method as returned by the gateway. -/
def mBTC : PaymentMethod := ⟨"BTC-CHAIN", some "bc1qxyz", some "0.01"⟩

/-- A Lightning method as returned by the gateway. -/
def mLN : PaymentMethod := ⟨"BTC-LightningNetwork", some "lnbc1abc", some "0.01"⟩

/-- An on-chain method whose destination key is absent. -/
def noDestMethod : PaymentMethod := ⟨"BTC-CHAIN", none, none⟩

/-- An on-chain method whose amount field is the empty string. -/
def mEmptyAmount : PaymentMethod := ⟨"BTC-CHAIN", some "bc1qxyz", some ""⟩

/-- A fetched invoice with one on-chain method. -/
def goodInvoice : Invoice :=
  ⟨some "https://pay.example/i/inv_1", "New", [mBTC]⟩

/-- Gateway configuration with both credentials missing. -/
def missingCreds : BtcpayEnv := ⟨"https://example.com", none, none⟩

/-- Gateway configuration with only the store id missing. -/
def halfCreds : BtcpayEnv := ⟨"https://example.com", some "test_api_key", none⟩

/-- Platform-call outcomes where bot add, bot promotion and the primary
invite-link export all fail, and only the fallback creation succeeds. -/
def fallbackOnlyCalls : TdlibCalls :=
  ⟨Except.ok 7, Except.error "add failed", Except.error "promote failed",
   Except.error "export failed", Except.ok "https://t.me/+abc"⟩

/-! Theorems for the claims. -/

/-- C1: with a non-empty method list, when the instant-settlement
preference is set and some method's label contains the Lightning
marker, `chooseMethod` selects the first such method regardless of its
position; otherwise (preference false, or no Lightning method) it
selects the first method in the gateway ordering, without
re-ranking. -/
theorem chooseMethod_first_wins (m0 : PaymentMethod) (tl : List PaymentMethod)
    (prefer : Bool) :
    (∀ pre m post, prefer = true → m0 :: tl = pre ++ m :: post →
        containsLightning m.paymentMethod = true →
        (∀ mp ∈ pre, containsLightning mp.paymentMethod = false) →
        chooseMethod (m0 :: tl) prefer = some m)
    ∧ ((prefer = false ∨ ∀ m ∈ m0 :: tl, containsLightning m.paymentMethod = false) →
        chooseMethod (m0 :: tl) prefer = some m0) := by
  constructor
  · intro pre m post hp hsplit hm hpre
    subst hp
    have hfind : findLightning (m0 :: tl) = some m := by
      rw [findLightning, hsplit, List.find?_append]
      have h1 : (pre.find? fun x => containsLightning x.paymentMethod) = none :=
        List.find?_eq_none.mpr (fun x hx => by simp [hpre x hx])
      have h2 : ((m :: post).find? fun x => containsLightning x.paymentMethod)
          = some m := List.find?_cons_of_pos post hm
      rw [h1, h2]
      rfl
    simp [chooseMethod, hfind]
  · intro h
    rcases h with hf | hall
    · subst hf
      simp [chooseMethod]
    · have hfind : findLightning (m0 :: tl) = none :=
        List.find?_eq_none.mpr (fun x hx => by simp [hall x hx])
      cases prefer <;> simp [chooseMethod, hfind]

/-- Witness for C1: with preference set, the Lightning method in second
position is selected over the first-position on-chain method. -/
theorem chooseMethod_first_wins_witness :
    chooseMethod [mBTC, mLN] true = some mLN :=
  (chooseMethod_first_wins mBTC [mLN] true).1 [mBTC] mLN [] rfl rfl
    (by decide) (by decide)

/-- C2 counterexample: bot.py's resolver (also cited by the claim)
never classifies the selected method — a Lightning-labelled `pm[0]`
carrying an amount yields `bitcoin:destination?amount=N`, an amount
suffix under the on-chain scheme, contradicting the claim that a
selected Lightning method's URI is exactly `scheme:destination` with
no amount suffix. -/
theorem bot_resolver_ignores_lightning :
    generate_payment_qr_bot [mLN] =
      Except.ok "bitcoin:lnbc1abc?amount=0.01" := rfl

/-- C2 amended: in the group-bot resolver the selected on-chain method
with a (truthy) amount yields exactly `bitcoin:destination?amount=N`,
with no amount it yields exactly `bitcoin:destination` (no trailing
suffix), and a selected Lightning method yields exactly
`lightning:destination` with no amount suffix whatever its amount
field holds; bot.py's resolver instead applies the on-chain
construction to the first method unconditionally, Lightning-labelled
or not. -/
theorem uri_family_shapes (ms : List PaymentMethod) (prefer : Bool)
    (chosen : PaymentMethod) (d : String)
    (hsel : chooseMethod ms prefer = some chosen)
    (hd : chosen.destination = some d) (hne : ¬ d = "") :
    (containsLightning chosen.paymentMethod = true →
        generate_payment_qr_groups ms prefer =
          Except.ok ("lightning:" ++ d, chosen))
    ∧ (containsLightning chosen.paymentMethod = false →
        (∀ a, chosen.amount = some a → ¬ a = "" →
            generate_payment_qr_groups ms prefer =
              Except.ok ("bitcoin:" ++ d ++ ("?amount=" ++ a), chosen))
        ∧ (chosen.amount = none →
            generate_payment_qr_groups ms prefer =
              Except.ok ("bitcoin:" ++ d, chosen)))
    ∧ (∀ tl, ms = chosen :: tl →
        (∀ a, chosen.amount = some a → ¬ a = "" →
            generate_payment_qr_bot ms =
              Except.ok ("bitcoin:" ++ d ++ ("?amount=" ++ a)))
        ∧ (chosen.amount = none →
            generate_payment_qr_bot ms = Except.ok ("bitcoin:" ++ d))) := by
  refine ⟨?_, ?_, ?_⟩
  · intro hl
    simp [generate_payment_qr_groups, hsel, hd, hne, hl]
  · intro hl
    refine ⟨?_, ?_⟩
    · intro a ha hane
      simp [generate_payment_qr_groups, hsel, hd, hne, hl, ha, pyTruthy,
        pyStr, hane]
    · intro hna
      simp [generate_payment_qr_groups, hsel, hd, hne, hl, hna, pyTruthy]
  · rintro tl rfl
    refine ⟨?_, ?_⟩
    · intro a ha hane
      simp [generate_payment_qr_bot, hd, ha, pyTruthy, pyStr, hane,
        String.append_assoc]
    · intro hna
      simp [generate_payment_qr_bot, hd, hna, pyTruthy, pyStr]

/-- Witness for the amended C2: the same Lightning method with an amount
gets a bare `lightning:` URI from the group-bot resolver and a
`bitcoin:` URI with an amount suffix from bot.py's resolver. -/
theorem uri_family_shapes_witness :
    generate_payment_qr_groups [mLN] true =
      Except.ok ("lightning:" ++ "lnbc1abc", mLN)
    ∧ generate_payment_qr_bot [mLN] =
        Except.ok ("bitcoin:" ++ "lnbc1abc" ++ ("?amount=" ++ "0.01")) := by
  have h := uri_family_shapes [mLN] true mLN "lnbc1abc" rfl rfl (by decide)
  exact ⟨h.1 (by decide), (h.2.2 [] rfl).1 "0.01" rfl (by decide)⟩

/-- C3 counterexample: bot.py's resolver performs no destination check —
on an invoice whose first method lacks a destination it does NOT fail;
it returns the URI "bitcoin:None" (the missing value interpolated as
text), from which a QR is then produced. -/
theorem bot_resolver_skips_destination_check :
    generate_payment_qr_bot [noDestMethod] = Except.ok "bitcoin:None" := rfl

/-- C3 amended: in the group bot's resolver (and in the btcpay helper),
a selected method with a missing or empty destination makes resolution
fail with the no-destination error, producing no URI; bot.py's legacy
resolver has no such check. -/
theorem no_destination_error (ms : List PaymentMethod) (prefer : Bool)
    (chosen : PaymentMethod)
    (hsel : chooseMethod ms prefer = some chosen)
    (hd : chosen.destination = none ∨ chosen.destination = some "") :
    generate_payment_qr_groups ms prefer =
      Except.error "No payment destination found."
    ∧ (∀ tl, ms = chosen :: tl →
        generate_payment_qr_btcpay ms =
          Except.error "No payment address found in invoice.") := by
  constructor
  · rcases hd with h | h <;> simp [generate_payment_qr_groups, hsel, h]
  · rintro tl rfl
    rcases hd with h | h <;> simp [generate_payment_qr_btcpay, h]

/-- Witness for the amended C3. -/
theorem no_destination_error_witness :
    generate_payment_qr_groups [noDestMethod] false =
      Except.error "No payment destination found." :=
  (no_destination_error [noDestMethod] false noDestMethod rfl
    (Or.inl rfl)).1

/-- C4 counterexample: with both gateway credentials missing, module
construction succeeds without raising, and the missing-credentials
error is instead raised inside the `getInvoice` call — a per-call
error, contradicting the claim that it is raised exactly once at
construction/startup and never per call. -/
theorem credentials_error_is_per_call :
    btcpayModuleInit missingCreds = Except.ok missingCreds
    ∧ get_invoice_request missingCreds "inv_1" =
        Except.error
          "Missing env var(s): BTCPAY_API_KEY, BTCPAY_STORE_ID. Add them to your .env file." :=
  ⟨rfl, rfl⟩

/-- C4 amended: missing gateway credentials are never checked at client
construction — construction always succeeds — and the failure is
raised lazily inside header assembly on EVERY call to createInvoice,
getInvoice or isSettled. -/
theorem credentials_checked_lazily (env : BtcpayEnv)
    (h : pyTruthy env.apiKey = false ∨ pyTruthy env.storeId = false) :
    btcpayModuleInit env = Except.ok env
    ∧ (∀ eid amt cur, ∃ msg,
        create_invoice_request env eid amt cur = Except.error msg)
    ∧ (∀ iid, ∃ msg, get_invoice_request env iid = Except.error msg)
    ∧ (∀ iid, ∃ msg, is_invoice_paid_request env iid = Except.error msg) := by
  have hreq : ∃ msg, require_env env = Except.error msg := by
    unfold require_env
    rcases h with h | h
    · cases hs : pyTruthy env.storeId <;> simp [h, hs]
    · cases ha : pyTruthy env.apiKey <;> simp [h, ha]
  obtain ⟨msg, hmsg⟩ := hreq
  have hh : headers env = Except.error msg := by
    simp only [headers, hmsg]
  refine ⟨rfl, ?_, ?_, ?_⟩
  · intro eid amt cur
    exact ⟨msg, by simp only [create_invoice_request, hh]⟩
  · intro iid
    exact ⟨msg, by simp only [get_invoice_request, hh]⟩
  · intro iid
    exact ⟨msg, by simp only [is_invoice_paid_request, get_invoice_request, hh]⟩

/-- Witness for the amended C4: with only the store id missing,
construction succeeds and a getInvoice call fails. -/
theorem credentials_checked_lazily_witness :
    btcpayModuleInit halfCreds = Except.ok halfCreds
    ∧ ∃ msg, get_invoice_request halfCreds "inv_1" = Except.error msg := by
  have h := credentials_checked_lazily halfCreds (Or.inr (by decide))
  exact ⟨h.1, h.2.2.1 "inv_1"⟩

/-- C5: registering the same identity twice leaves the registry, as
observed by lookup at every identity, in the same state as the second
registration alone, and the stored record is exactly the second
role-address pair — last write replaces both fields as one unit, so no
mixed record is observable. -/
theorem register_last_write_wins (reg : Registry) (uid : Nat) (r1 r2 : Role)
    (a1 a2 : String) :
    (∀ j, lookup (register (register reg uid r1 a1) uid r2 a2) j =
        lookup (register reg uid r2 a2) j)
    ∧ lookup (register (register reg uid r1 a1) uid r2 a2) uid =
        some ⟨r2, a2⟩ := by
  constructor
  · intro j
    by_cases h : j = uid <;> simp [lookup, register, h]
  · simp [lookup, register]

/-- C6: channel provisioning succeeds exactly when channel creation
succeeds and at least one of the two invite-link calls succeeds — the
bot-add and bot-promotion outcomes are irrelevant — and a successful
handle carries the requested title together with an invite link coming
from one of the two invite-link calls. -/
theorem provisioning_success_iff (calls : TdlibCalls) (title : String) :
    exIsOk (create_new_group calls title) =
      (exIsOk calls.createSupergroup &&
        (exIsOk calls.exportInviteLink || exIsOk calls.createInviteLink))
    ∧ ∀ link t cid, create_new_group calls title = Except.ok (link, t, cid) →
        t = title ∧ (calls.exportInviteLink = Except.ok link
          ∨ calls.createInviteLink = Except.ok link) := by
  obtain ⟨cs, ad, pr, ex, cr⟩ := calls
  constructor
  · cases cs <;> cases ex <;> cases cr <;> simp [create_new_group, exIsOk]
  · intro link t cid h
    cases cs <;> cases ex <;> cases cr <;> simp_all [create_new_group]

/-- Witness for C6: with bot add, bot promotion and the primary export
all failing, provisioning still succeeds and the invite link comes
from the fallback creation call. -/
theorem provisioning_success_iff_witness :
    exIsOk (create_new_group fallbackOnlyCalls "Escrow #abcde") = true
    ∧ (fallbackOnlyCalls.exportInviteLink = Except.ok "https://t.me/+abc"
        ∨ fallbackOnlyCalls.createInviteLink = Except.ok "https://t.me/+abc") := by
  have h := provisioning_success_iff fallbackOnlyCalls "Escrow #abcde"
  exact ⟨by rw [h.1]; rfl,
    (h.2 "https://t.me/+abc" "Escrow #abcde" 7 rfl).2⟩

/-- C7: resolving an invoice with an empty payment-method list fails
with the no-payment-methods error for both preference values (and
likewise in bot.py's resolver), before any selection or URI
construction. -/
theorem resolve_empty_methods (prefer : Bool) :
    generate_payment_qr_groups [] prefer =
      Except.error "No payment methods found in invoice."
    ∧ generate_payment_qr_bot [] =
        Except.error "No payment methods in invoice" :=
  ⟨rfl, rfl⟩

/-- C8 counterexample: the group bot's payment handler, after a
successful QR reply, issues no sleep and deletes neither the
payment-display message nor the triggering command message —
contradicting the claim that both deletions happen for every
successful payment display. -/
theorem groups_pay_never_deletes :
    cmd_pay_groups "/pay inv_1" (Except.ok goodInvoice) =
      [BotAction.replyPhoto (payCaptionGroups "inv_1" "bitcoin:bc1qxyz?amount=0.01")]
    ∧ BotAction.deleteReply ∉ cmd_pay_groups "/pay inv_1" (Except.ok goodInvoice)
    ∧ BotAction.deleteTrigger ∉ cmd_pay_groups "/pay inv_1" (Except.ok goodInvoice)
    ∧ ∀ n, BotAction.sleep n ∉ cmd_pay_groups "/pay inv_1" (Except.ok goodInvoice) := by
  have h : cmd_pay_groups "/pay inv_1" (Except.ok goodInvoice) =
      [BotAction.replyPhoto
        (payCaptionGroups "inv_1" "bitcoin:bc1qxyz?amount=0.01")] := by decide
  refine ⟨h, ?_, ?_, ?_⟩ <;> simp [h]

/-- C8 amended: in bot.py's payment handler every successful payment
display is followed by a 60-unit sleep and then the deletion of the
payment-display reply and of the triggering command message, in that
order and never earlier; the group bot's payment handler performs no
deletion at all. -/
theorem bot_pay_deletes_both_after_60 (text : String) (inv : Invoice)
    (tok0 invoiceId : String) (rest : List String) (uri : String)
    (hsplit : pySplit text = tok0 :: invoiceId :: rest)
    (hqr : generate_payment_qr_bot inv.paymentMethods = Except.ok uri) :
    cmd_pay_bot text (Except.ok inv) =
      [BotAction.answerPhoto (payCaptionBot invoiceId inv.checkoutLink),
       BotAction.sleep 60, BotAction.deleteReply, BotAction.deleteTrigger] := by
  simp [cmd_pay_bot, hsplit, hqr]

/-- Witness for the amended C8. -/
theorem bot_pay_deletes_both_after_60_witness :
    cmd_pay_bot "/pay inv_1" (Except.ok goodInvoice) =
      [BotAction.answerPhoto (payCaptionBot "inv_1" goodInvoice.checkoutLink),
       BotAction.sleep 60, BotAction.deleteReply, BotAction.deleteTrigger] :=
  bot_pay_deletes_both_after_60 "/pay inv_1" goodInvoice "/pay" "inv_1" []
    ("bitcoin:" ++ "bc1qxyz" ++ "?amount=" ++ "0.01") (by decide) rfl

/-- C9: a registration or payment command message with fewer than two
whitespace-separated tokens makes each handler reply with its usage
message and leave the role registry completely unchanged. -/
theorem malformed_args_no_state_change (text : String) (uid : Nat)
    (reg : Registry) (fetch : Except String Invoice)
    (h : (pySplit text).length < 2) :
    cmd_seller text uid reg =
      (reg, [BotAction.reply "⚠️ Usage: /seller <WALLET_ADDRESS>"])
    ∧ cmd_buyer text uid reg =
        (reg, [BotAction.reply "⚠️ Usage: /buyer <WALLET_ADDRESS>"])
    ∧ cmd_pay_bot text fetch = [BotAction.reply "⚠️ Usage: /pay <invoice_id>"]
    ∧ cmd_pay_groups text fetch =
        [BotAction.reply "⚠️ Usage: /pay <invoice_id>"] := by
  match hs : pySplit text with
  | [] =>
    refine ⟨?_, ?_, ?_, ?_⟩ <;>
      simp [cmd_seller, cmd_buyer, cmd_pay_bot, cmd_pay_groups, hs]
  | [t] =>
    refine ⟨?_, ?_, ?_, ?_⟩ <;>
      simp [cmd_seller, cmd_buyer, cmd_pay_bot, cmd_pay_groups, hs]
  | t :: u :: rest =>
    rw [hs] at h
    simp at h
    omega

/-- Witness for C9: a bare "/seller" command changes nothing. -/
theorem malformed_args_no_state_change_witness :
    cmd_seller "/seller" 42 emptyRegistry =
      (emptyRegistry, [BotAction.reply "⚠️ Usage: /seller <WALLET_ADDRESS>"]) :=
  (malformed_args_no_state_change "/seller" 42 emptyRegistry
    (Except.error "e") (by decide)).1

/-- C10: a selected on-chain method whose amount field is present but is
the empty string yields a URI with no amount parameter at all, exactly
as if the amount were absent — in both the group bot's resolver and
bot.py's resolver. -/
theorem empty_amount_omitted (ms : List PaymentMethod) (prefer : Bool)
    (chosen : PaymentMethod) (d : String)
    (hsel : chooseMethod ms prefer = some chosen)
    (hd : chosen.destination = some d) (hne : ¬ d = "")
    (hnl : containsLightning chosen.paymentMethod = false)
    (ha : chosen.amount = some "") :
    generate_payment_qr_groups ms prefer = Except.ok ("bitcoin:" ++ d, chosen)
    ∧ (∀ tl, ms = chosen :: tl →
        generate_payment_qr_bot ms = Except.ok ("bitcoin:" ++ d)) := by
  constructor
  · simp [generate_payment_qr_groups, hsel, hd, hne, hnl, ha, pyTruthy]
  · rintro tl rfl
    simp [generate_payment_qr_bot, hd, ha, pyTruthy, pyStr]

/-- Witness for C10. -/
theorem empty_amount_omitted_witness :
    generate_payment_qr_groups [mEmptyAmount] false =
      Except.ok ("bitcoin:" ++ "bc1qxyz", mEmptyAmount) :=
  (empty_amount_omitted [mEmptyAmount] false mEmptyAmount "bc1qxyz" rfl rfl
    (by decide) (by decide) rfl).1

end WealthEscrow
